import Mathlib

/-!
Shallow embedding of the pipeline-orchestration and script-validation core of
the ai-shorts repository (TypeScript sources `node/src/config.ts`,
`node/src/generate.ts`, `node/src/index.ts` and the full-pipeline module).

JavaScript numbers are modelled as `ℚ` (the claims only involve comparisons
and decimal literals, never rounding); a JS number that may be `NaN` is
modelled as `Option ℚ` with `none` standing for `NaN`.  JS strings are Lean
`String`s; a value that may be `undefined` is an `Option`.  Dynamic `typeof`
checks of the source are vacuously true in this typed embedding and are noted
where they occur.
-/

deriving instance DecidableEq for Except

/-! ## Script data model (`generate.ts`, interfaces `ScriptScene`,
`YouTubeShortScript`) -/

/-- `interface ScriptScene { start: number; end: number; voice: string;
overlay: string }` from `generate.ts`.  The source field `end` is a Lean
keyword, hence the guillemets. -/
structure ScriptScene where
  start : ℚ
  «end» : ℚ
  voice : String
  overlay : String
deriving DecidableEq

/-- `interface YouTubeShortScript { title: string; duration_seconds: number;
scenes: ScriptScene[] }` from `generate.ts`. -/
structure YouTubeShortScript where
  title : String
  duration_seconds : ℚ
  scenes : List ScriptScene
deriving DecidableEq

/-- The distinct `throw new Error(...)` sites of `validateScript` in
`generate.ts`, in source order.  `invalidSceneNumbers` corresponds to the
`typeof scene.start/end !== 'number'` branch, which is unreachable in this
typed embedding. -/
inductive ScriptError where
  | missingTitle
  | invalidDuration
  | emptySceneList
  | invalidSceneNumbers (index : ℕ)
  | invalidSceneTiming (index : ℕ)
  | invalidSceneVoice (index : ℕ)
  | invalidSceneOverlay (index : ℕ)
  | sceneOverlap (index : ℕ)
deriving DecidableEq

/-- Body of the `script.scenes.forEach((scene, index) => ...)` callback in
`validateScript` (`generate.ts` lines 131–147): the `typeof ... !== 'number'`
check is vacuous here, then timing, then `voice`, then `overlay`.  A JS string
is falsy exactly when empty, so `!scene.voice` is `scene.voice = ""`. -/
def validateOneScene (dur : ℚ) (index : ℕ) (sc : ScriptScene) : Except ScriptError Unit :=
  if sc.start < 0 ∨ sc.«end» > dur ∨ sc.start ≥ sc.«end» then
    .error (.invalidSceneTiming index)
  else if sc.voice = "" then .error (.invalidSceneVoice index)
  else if sc.overlay = "" then .error (.invalidSceneOverlay index)
  else .ok ()

/-- The `forEach` loop over scenes of `validateScript`, threading the index;
the first offending scene aborts (the JS `throw` escapes the `forEach`). -/
def validateScenesFrom (dur : ℚ) : ℕ → List ScriptScene → Except ScriptError Unit
  | _, [] => .ok ()
  | index, sc :: rest =>
    match validateOneScene dur index sc with
    | .ok _ => validateScenesFrom dur (index + 1) rest
    | .error e => .error e

/-- The overlap loop of `validateScript` (`generate.ts` lines 150–154):
`for (let i = 1; i < scenes.length; i++) if (scenes[i].start < scenes[i-1].end)
throw`.  `prev` is `scenes[i-1]`, `index` is the running `i`. -/
def checkOverlapsFrom : ℕ → ScriptScene → List ScriptScene → Except ScriptError Unit
  | _, _, [] => .ok ()
  | index, prev, sc :: rest =>
    if sc.start < prev.«end» then .error (.sceneOverlap index)
    else checkOverlapsFrom (index + 1) sc rest

/-- `validateScript` from `generate.ts` (lines 116–155).  `!script.title`
is `script.title = ""` for a string; `typeof ... !== 'number'` and
`Array.isArray` checks are vacuous in the typed embedding. -/
def validateScript (script : YouTubeShortScript) : Except ScriptError Unit :=
  if script.title = "" then .error .missingTitle
  else if script.duration_seconds ≤ 0 then .error .invalidDuration
  else match script.scenes with
    | [] => .error .emptySceneList
    | first :: rest =>
      match validateScenesFrom script.duration_seconds 0 (first :: rest) with
      | .error e => .error e
      | .ok _ => checkOverlapsFrom 1 first rest

example :
    validateScript ⟨"X", 20, [⟨0, 10, "a", "b"⟩, ⟨10, 20, "a", "c"⟩]⟩ = .ok () := by
  decide

example :
    validateScript ⟨"X", 20, [⟨0, 10, "a", "b"⟩, ⟨5, 20, "a", "c"⟩]⟩ =
      .error (.sceneOverlap 1) := by
  decide

example :
    validateScript ⟨"X", 10, [⟨0, 10, "", "b"⟩]⟩ =
      .error (.invalidSceneVoice 0) := by
  decide

/-! ## Configuration (`config.ts`) -/

/-- `script.duration_seconds` is typed `number | "auto"` in `config.ts`. -/
inductive ScriptDuration where
  | auto
  | seconds (value : ℚ)
deriving DecidableEq

/-- `config.script` record of `config.ts`. -/
structure ScriptConfig where
  topic : String
  style : String
  duration_seconds : ScriptDuration
  hook_duration : ℚ
  development_duration : ℚ
  climax_duration : ℚ
  max_words_per_scene : ℚ
deriving DecidableEq

/-- `tts.available_voices` record of `config.ts`. -/
structure AvailableVoices where
  male : List String
  female : List String
deriving DecidableEq

/-- `tts.speed_presets` record of `config.ts`. -/
structure SpeedPresets where
  very_slow : String
  slow : String
  normal : String
  fast : String
  very_fast : String
deriving DecidableEq

/-- `config.tts` record of `config.ts`. -/
structure TtsConfig where
  provider : String
  voice : String
  rate : String
  volume : String
  pitch : String
  available_voices : AvailableVoices
  speed_presets : SpeedPresets
deriving DecidableEq

/-- `video.resolution` record of `config.ts`. -/
structure Resolution where
  width : ℚ
  height : ℚ
deriving DecidableEq

/-- `config.video` record of `config.ts`. -/
structure VideoConfig where
  background_video : String
  resolution : Resolution
  fps : ℚ
  format : String
  codec : String
  audio_codec : String
  crf : ℚ
  preset : String
deriving DecidableEq

/-- `config.llm` record of `config.ts`. -/
structure LlmConfig where
  model : String
  temperature : ℚ
  max_tokens : ℚ
  use_gpu : Bool
deriving DecidableEq

/-- `config.output` record of `config.ts`. -/
structure OutputConfig where
  directory : String
  script_file : String
  audio_file : String
  background_file : String
  final_video : String
deriving DecidableEq

/-- `config.text_overlay` record of `config.ts`. -/
structure TextOverlayConfig where
  enabled : Bool
  font : String
  font_size : ℚ
  font_color : String
  position : String
  background_color : String
  border_width : ℚ
deriving DecidableEq

/-- `interface Config` from `config.ts`. -/
structure Config where
  script : ScriptConfig
  tts : TtsConfig
  video : VideoConfig
  llm : LlmConfig
  output : OutputConfig
  text_overlay : TextOverlayConfig
deriving DecidableEq

/-- `getDefaultConfig()` from `config.ts` (lines 103–168), field for field. -/
def getDefaultConfig : Config where
  script :=
    { topic := "interesting life stories from Reddit"
      style := "engaging, dramatic storytelling"
      duration_seconds := .auto
      hook_duration := 8
      development_duration := 10
      climax_duration := 12
      max_words_per_scene := 50 }
  tts :=
    { provider := "edge-tts"
      voice := "en-US-ChristopherNeural"
      rate := "+0%"
      volume := "+0%"
      pitch := "+0Hz"
      available_voices :=
        { male := ["en-US-ChristopherNeural", "en-US-EricNeural",
            "en-US-GuyNeural", "en-US-RogerNeural"]
          female := ["en-US-JennyNeural", "en-US-AriaNeural",
            "en-US-MichelleNeural"] }
      speed_presets :=
        { very_slow := "-50%"
          slow := "-25%"
          normal := "+0%"
          fast := "+25%"
          very_fast := "+50%" } }
  video :=
    { background_video := "minecraft_runner.mp4"
      resolution := { width := 1080, height := 1920 }
      fps := 30
      format := "mp4"
      codec := "libx264"
      audio_codec := "aac"
      crf := 23
      preset := "fast" }
  llm :=
    { model := "llama3.2"
      temperature := 8 / 10
      max_tokens := 500
      use_gpu := true }
  output :=
    { directory := "./output"
      script_file := "script.json"
      audio_file := "speech_all.wav"
      background_file := "background.mp4"
      final_video := "short.mp4" }
  text_overlay :=
    { enabled := false
      font := "arial.ttf"
      font_size := 48
      font_color := "white"
      position := "bottom"
      background_color := "black@0.7"
      border_width := 5 }

/-- Outcome of the candidate-file probing that `loadConfig` performs on a
cache miss (`config.ts` lines 76–100): either some candidate path exists and
its contents parse to a configuration, or a filesystem/`JSON.parse` call
throws (the `catch` branch), or no candidate path exists. -/
inductive LoadOutcome where
  | found (parsed : Config)
  | loadThrew
  | notFound
deriving DecidableEq

/-- `loadConfig()` from `config.ts` (lines 71–101), as a function of the
module-level memo `cachedConfig` and the filesystem outcome; it returns the
configuration together with the new memo state.  Note that the `catch` branch
(`loadThrew`) returns `getDefaultConfig()` WITHOUT assigning `cachedConfig`,
while the not-found branch assigns it. -/
def loadConfig (env : LoadOutcome) (cachedConfig : Option Config) :
    Config × Option Config :=
  match cachedConfig with
  | some c => (c, some c)
  | none =>
    match env with
    | .found parsed => (parsed, some parsed)
    | .notFound => (getDefaultConfig, some getDefaultConfig)
    | .loadThrew => (getDefaultConfig, none)

/-- `reloadConfig()` from `config.ts` (lines 170–173): sets
`cachedConfig = null` then calls `loadConfig()`. -/
def reloadConfig (env : LoadOutcome) (_cachedConfig : Option Config) :
    Config × Option Config :=
  loadConfig env none

/-! ## Process executor (`index.ts`, `PythonOrchestrator.executePythonScript`) -/

/-- How a spawned worker process ends, as observed by the two event handlers
installed in `executePythonScript` (`index.ts` lines 43–57): either the
`close` event fires with an exit code (`null` when killed by a signal) and the
accumulated stdout/stderr text, or the `error` event fires with a spawn
failure cause. -/
inductive ProcEnd where
  | closed (code : Option ℤ) (stdout stderr : String)
  | errored (cause : String)
deriving DecidableEq

/-- Settlement of the promise returned by `executePythonScript`:
`resolved` is `resolve(stdout.trim())`, `rejectedWorker` is
`reject(new Error(...))` from the non-zero-exit branch (which carries only the
message string), and `rejectedSpawn` is `reject(error)` from the `error`
handler, which passes the spawn failure through unwrapped. -/
inductive ExecOutcome where
  | resolved (value : String)
  | rejectedWorker (message : String)
  | rejectedSpawn (cause : String)
deriving DecidableEq

/-- `executePythonScript` promise settlement (`index.ts` lines 43–57):
`code === 0` resolves with `stdout.trim()`; any other close (including a
`null` code) rejects with `new Error("Python script failed: " + stderr)`;
a spawn error rejects with the cause itself. -/
def executePythonScript (outcome : ProcEnd) : ExecOutcome :=
  match outcome with
  | .closed code out err =>
    if code = some 0 then .resolved out.trim
    else .rejectedWorker ("Python script failed: " ++ err)
  | .errored cause => .rejectedSpawn cause

/-! ## Duration-probe output parsing (full-pipeline module, lines 50–51:
`audioDurationResult.match(/Duration: ([\d.]+) seconds/)` followed by
`durationMatch ? parseFloat(durationMatch[1]) : 30.0`). -/

/-- Character class `[\d.]` of the probe regex. -/
def isDigitDot (c : Char) : Bool := c.isDigit || c = '.'

/-- Maximal run of `[\d.]` characters at the front of the input, together
with the remainder (the greedy `[\d.]+` behaviour; backtracking to a shorter
run can never help because the following literal starts with a space, which
is not in the class). -/
def takeDigitDotRun : List Char → List Char × List Char
  | [] => ([], [])
  | c :: cs =>
    if isDigitDot c then
      let p := takeDigitDotRun cs
      (c :: p.1, p.2)
    else ([], c :: cs)

/-- Consume the literal `lit` at the front of `s`, returning the remainder,
or `none` if `s` does not start with `lit`. -/
def dropLit : List Char → List Char → Option (List Char)
  | [], s => some s
  | _, [] => none
  | p :: ps, c :: cs => if c = p then dropLit ps cs else none

/-- Attempt the probe regex at the current position: literal `"Duration: "`,
then a non-empty `[\d.]+` run (the capture), then literal `" seconds"`. -/
def matchDurationAt (s : List Char) : Option (List Char) :=
  match dropLit "Duration: ".data s with
  | none => none
  | some r1 =>
    match takeDigitDotRun r1 with
    | ([], _) => none
    | (run, r2) =>
      match dropLit " seconds".data r2 with
      | none => none
      | some _ => some run

/-- `String.prototype.match` with the probe regex: leftmost position at which
the pattern matches, returning the capture group. -/
def findDurationMatch : List Char → Option (List Char)
  | [] => none
  | c :: cs =>
    match matchDurationAt (c :: cs) with
    | some run => some run
    | none => findDurationMatch cs

/-- Value of the i-th decimal digit character. -/
def digitVal (c : Char) : ℕ := c.toNat - 48

/-- Leading decimal-digit run of the input and the remainder. -/
def takeDigits : List Char → List Char × List Char
  | [] => ([], [])
  | c :: cs =>
    if c.isDigit then
      let p := takeDigits cs
      (c :: p.1, p.2)
    else ([], c :: cs)

/-- Numeric value of a digit run. -/
def digitsToNat (ds : List Char) : ℕ := ds.foldl (fun a c => 10 * a + digitVal c) 0

/-- `parseFloat` restricted to inputs drawn from `[\d.]+` (all the probe
capture can produce): an optional integer-digit run, an optional `.` followed
by a fraction-digit run, everything after a second `.` ignored; `none`
models the `NaN` result when no digit is consumed (e.g. on `"."`). -/
def parseFloatQ (s : List Char) : Option ℚ :=
  match takeDigits s with
  | (ip, '.' :: r2) =>
    match takeDigits r2 with
    | (fp, _) =>
      if ip.isEmpty ∧ fp.isEmpty then none
      else some ((digitsToNat ip : ℚ) + (digitsToNat fp : ℚ) / 10 ^ fp.length)
  | (ip, _) => if ip.isEmpty then none else some (digitsToNat ip : ℚ)

/-- The audio duration the full pipeline derives from the duration-probe
worker's text (full-pipeline module lines 50–51): `parseFloat` of the capture
when the regex matches, the literal `30.0` otherwise.  `none` models the
`NaN` a matching but unparsable capture produces. -/
def jsAudioDuration (text : String) : Option ℚ :=
  match findDurationMatch text.data with
  | some run => parseFloatQ run
  | none => some 30

/-- The probe regex finds the capture `45.2` in the spec's example text.
(`Rat` arithmetic is kernel-irreducible, so the capture is evaluated first
and its `parseFloat` value is computed separately below.) -/
lemma findDurationMatch_example :
    findDurationMatch "Duration: 45.2 seconds".data = some ['4', '5', '.', '2'] := by
  decide

/-- `parseFloat("45.2")` is the rational `45.2`. -/
lemma parseFloatQ_452 : parseFloatQ ['4', '5', '.', '2'] = some (45.2 : ℚ) := by
  have h1 : takeDigits ['4', '5', '.', '2'] = (['4', '5'], '.' :: ['2']) := by decide
  have h2 : takeDigits ['2'] = (['2'], []) := by decide
  have h3 : digitsToNat ['4', '5'] = 45 := by decide
  have h4 : digitsToNat ['2'] = 2 := by decide
  simp only [parseFloatQ, h1, h2, h3, h4, List.isEmpty_cons, List.length_cons,
    List.length_nil]
  norm_num

example : jsAudioDuration "no duration here" = some 30 := by decide

example : jsAudioDuration "Duration: . seconds" = none := by decide

/-! ## Pipeline orchestration (full-pipeline module, `FullPipeline`) -/

/-- One orchestrator-level worker invocation, at the granularity of the
methods called by `runStep`/`runFullPipeline`: `generateStage` is the
in-process script generation (`generator.initializeModel/generateScript/
saveScript/cleanup`), `execScript` is `orchestrator.executePythonScript`
with its positional arguments, and `prepareVideo` is
`orchestrator.prepareBackgroundVideo` (which forwards
`[resolve(input), join(outputPath, output), duration.toString()]` to the
`prepare_video.py` worker).  The duration is `Option ℚ` because the full
pipeline can pass the `NaN` produced by an unparsable probe capture. -/
inductive WorkerCall where
  | generateStage
  | execScript (scriptName : String) (args : List String)
  | prepareVideo (inputVideo outputVideo : String) (duration : Option ℚ)
deriving DecidableEq

/-- The two `throw new Error(...)` sites of `runStep`: the missing
`inputVideo` for `prepare-video` (line 98) and the unknown-step default
branch (line 112), whose message text is carried verbatim. -/
inductive StepError where
  | missingInputVideo
  | unknownStep (message : String)
deriving DecidableEq

/-- JS falsy-defaulting `if (!v) v = d` on an optional string: `undefined`
and the empty string both fall back to the default. -/
def jsOrDefault (v : Option String) (d : String) : String :=
  match v with
  | none => d
  | some s => if s = "" then d else s

/-- `runStep` from the full-pipeline module (lines 79–114): the worker
invocations each `case` performs, or the error it throws.  The `generate`
branch runs in-process; `synth` calls `executePythonScript('synth.py')`
with the default empty argument list; `prepare-video` requires a truthy
`inputVideo` and passes the fixed duration `30`; `assemble` passes the four
output-relative paths; any other name throws the enumerating message. -/
def runStep (step : String) (inputVideo : Option String) :
    Except StepError (List WorkerCall) :=
  if step = "generate" then .ok [.generateStage]
  else if step = "synth" then .ok [.execScript "synth.py" []]
  else if step = "prepare-video" then
    match inputVideo with
    | none => .error .missingInputVideo
    | some iv =>
      if iv = "" then .error .missingInputVideo
      else .ok [.prepareVideo iv "background.mp4" (some 30)]
  else if step = "assemble" then
    .ok [.execScript "assemble.py"
      ["../output/script.json", "../output/background.mp4",
       "../output/speech_all.wav", "../output/short.mp4"]]
  else
    .error (.unknownStep
      ("Unknown step: " ++ step ++
        ". Available steps: generate, synth, prepare-video, assemble"))

/-- `runFullPipeline` from the full-pipeline module (lines 20–74), on its
success path: the sequence of stage invocations, as a function of the
configured default background video, the optional `inputVideo` argument, and
the text the duration-probe worker (`audio_utils.py`) prints.  A failing
stage aborts the run (fail-fast), which the claims here do not touch. -/
def runFullPipeline (cfgBackgroundVideo : String) (inputVideo : Option String)
    (probeText : String) : List WorkerCall :=
  let iv := jsOrDefault inputVideo cfgBackgroundVideo
  [.generateStage,
   .execScript "synth.py" ["../output/script.json", "../output/speech_all.wav"],
   .execScript "audio_utils.py" ["../output/speech_all.wav"],
   .prepareVideo iv "background.mp4" (jsAudioDuration probeText),
   .execScript "assemble.py"
     ["../output/script.json", "../output/background.mp4",
      "../output/speech_all.wav", "../output/short.mp4"]]

/-! ## Script generator state (`generate.ts`, `YouTubeShortGenerator`) -/

/-- `interface Scene` from `generate.ts` (the scenes-catalog authoring
template). -/
structure Scene where
  id : String
  name : String
  description : String
  topic : String
  style : String
  hook_duration : ℚ
  development_duration : ℚ
  climax_duration : ℚ
  max_words_per_scene : ℚ
  voice : String
  rate : String
  example_script : YouTubeShortScript
deriving DecidableEq

/-- `interface ScenesData` from `generate.ts`. -/
structure ScenesData where
  scenes : List Scene
  default_scene : String
deriving DecidableEq

/-- The mutable fields of `YouTubeShortGenerator` the claims depend on:
`private model: any = null`, set to the truthy `{ mock: true }` by
`initializeModel` and never reset (`cleanup` keeps the reference). -/
structure GenState where
  model : Option Unit
  scenesData : ScenesData
deriving DecidableEq

/-- `initializeModel` from `generate.ts` (lines 74–84): the `try` body only
logs and assigns `this.model = { mock: true }`, so it cannot throw and always
leaves the model set. -/
def initializeModel (s : GenState) : GenState :=
  { s with model := some () }

/-- How `generateScript` can fail: the `!this.model` guard (line 91), the
`TypeError` of reading `example_script` on `undefined` when the catalog has
no scenes, or a `validateScript` error rethrown by the `catch`. -/
inductive GenError where
  | modelNotInitialized
  | noSceneAvailable
  | validation (e : ScriptError)
deriving DecidableEq

/-- `generateScript` from `generate.ts` (lines 90–111): guard on the model,
pick `scenes.find(s => s.id === default_scene) || scenes[0]`, validate the
scene's example script and return it. -/
def generateScript (s : GenState) : Except GenError YouTubeShortScript :=
  if s.model = none then .error .modelNotInitialized
  else
    match (s.scenesData.scenes.find? fun sc => sc.id = s.scenesData.default_scene).orElse
        (fun _ => s.scenesData.scenes.head?) with
    | none => .error .noSceneAvailable
    | some sc =>
      match validateScript sc.example_script with
      | .ok _ => .ok sc.example_script
      | .error e => .error (.validation e)

/-! ## Helper lemmas about the validator -/

lemma validateOneScene_ok (dur : ℚ) (index : ℕ) (sc : ScriptScene)
    (h1 : 0 ≤ sc.start) (h2 : sc.start < sc.«end») (h3 : sc.«end» ≤ dur)
    (h4 : sc.voice ≠ "") (h5 : sc.overlay ≠ "") :
    validateOneScene dur index sc = .ok () := by
  rw [validateOneScene,
    if_neg (by push_neg; exact ⟨h1, h3, h2⟩), if_neg h4, if_neg h5]

lemma validateScenesFrom_ok (dur : ℚ) (l : List ScriptScene) (i : ℕ)
    (h : ∀ sc ∈ l, 0 ≤ sc.start ∧ sc.start < sc.«end» ∧ sc.«end» ≤ dur ∧
      sc.voice ≠ "" ∧ sc.overlay ≠ "") :
    validateScenesFrom dur i l = .ok () := by
  induction l generalizing i with
  | nil => rfl
  | cons c rest ih =>
    obtain ⟨hc1, hc2, hc3, hc4, hc5⟩ := h c (by simp)
    rw [validateScenesFrom, validateOneScene_ok dur i c hc1 hc2 hc3 hc4 hc5]
    exact ih (i + 1) (fun sc hsc => h sc (by simp [hsc]))

lemma checkOverlapsFrom_ok (l : List ScriptScene) (prev : ScriptScene) (i : ℕ)
    (h : ∀ k (hk : k < l.length),
      ((prev :: l).get ⟨k, by simp only [List.length_cons]; omega⟩).«end» ≤
        (l.get ⟨k, hk⟩).start) :
    checkOverlapsFrom i prev l = .ok () := by
  induction l generalizing prev i with
  | nil => rfl
  | cons c rest ih =>
    have h0 : prev.«end» ≤ c.start := h 0 (by simp only [List.length_cons]; omega)
    rw [checkOverlapsFrom, if_neg (not_lt.mpr h0)]
    exact ih c (i + 1)
      (fun k hk => h (k + 1) (by simp only [List.length_cons]; omega))

lemma checkOverlapsFrom_err (l : List ScriptScene) (prev : ScriptScene)
    (i j : ℕ) (hj : j < l.length)
    (hpre : ∀ k (hk : k < j),
      ((prev :: l).get ⟨k, by simp only [List.length_cons]; omega⟩).«end» ≤
        (l.get ⟨k, by omega⟩).start)
    (hviol : (l.get ⟨j, hj⟩).start <
      ((prev :: l).get ⟨j, by simp only [List.length_cons]; omega⟩).«end») :
    checkOverlapsFrom i prev l = .error (.sceneOverlap (i + j)) := by
  induction l generalizing prev i j with
  | nil => exact absurd hj (by simp)
  | cons c rest ih =>
    cases j with
    | zero =>
      rw [checkOverlapsFrom, if_pos (show c.start < prev.«end» from hviol)]
      simp
    | succ j' =>
      have h0 : prev.«end» ≤ c.start := hpre 0 (by omega)
      rw [checkOverlapsFrom, if_neg (not_lt.mpr h0)]
      have hj' : j' < rest.length := by
        simp only [List.length_cons] at hj; omega
      have := ih c (i + 1) j' hj'
        (fun k hk => hpre (k + 1) (by omega)) hviol
      rw [this]
      congr 2
      omega

/-- Shared reduction of `validateScript` past the title, duration, emptiness
and per-scene checks, down to the overlap scan. -/
lemma validateScript_cons_reduce (s : YouTubeShortScript)
    (ht : s.title ≠ "") (hd : 0 < s.duration_seconds)
    (first : ScriptScene) (rest : List ScriptScene)
    (hs : s.scenes = first :: rest)
    (hok : validateScenesFrom s.duration_seconds 0 (first :: rest) = .ok ()) :
    validateScript s = checkOverlapsFrom 1 first rest := by
  simp only [validateScript, if_neg ht, if_neg (not_le.mpr hd), hs, hok]

/-- Shared success case: all checks (including the voice/overlay ones) pass
and consecutive scenes never overlap. -/
lemma validateScript_ok_helper (s : YouTubeShortScript)
    (ht : s.title ≠ "") (hd : 0 < s.duration_seconds) (hne : s.scenes ≠ [])
    (hsc : ∀ sc ∈ s.scenes, 0 ≤ sc.start ∧ sc.start < sc.«end» ∧
      sc.«end» ≤ s.duration_seconds ∧ sc.voice ≠ "" ∧ sc.overlay ≠ "")
    (hadj : ∀ k (hk : k + 1 < s.scenes.length),
      (s.scenes.get ⟨k, by omega⟩).«end» ≤ (s.scenes.get ⟨k + 1, hk⟩).start) :
    validateScript s = .ok () := by
  obtain ⟨t, d, l⟩ := s
  rcases l with _ | ⟨first, rest⟩
  · exact absurd rfl hne
  · rw [validateScript_cons_reduce _ ht hd first rest rfl
      (validateScenesFrom_ok _ _ _ hsc)]
    exact checkOverlapsFrom_ok rest first 1
      (fun k hk => hadj k (by show k + 1 < rest.length + 1; omega))

/-! ## Claim C1 -/

/-- C1 (counterexample): the script `{title: "X", duration_seconds: 10,
scenes: [{start: 0, end: 10, voice: "", overlay: "b"}]}` satisfies every
invariant the claim lists — non-empty title, positive duration, non-empty
scene list, `0 ≤ start < end ≤ duration_seconds` for each scene, and the
no-overlap ordering — yet `validateScript` does not return without error:
it throws the scene-0 `voice` error, because the code additionally requires
`voice` (and `overlay`) to be non-empty strings. -/
theorem validateScript_invariants_counterexample :
    (YouTubeShortScript.title ⟨"X", 10, [⟨0, 10, "", "b"⟩]⟩ ≠ "" ∧
      0 < YouTubeShortScript.duration_seconds ⟨"X", 10, [⟨0, 10, "", "b"⟩]⟩ ∧
      YouTubeShortScript.scenes ⟨"X", 10, [⟨0, 10, "", "b"⟩]⟩ ≠ [] ∧
      (∀ sc ∈ YouTubeShortScript.scenes ⟨"X", 10, [⟨0, 10, "", "b"⟩]⟩,
        0 ≤ sc.start ∧ sc.start < sc.«end» ∧ sc.«end» ≤ 10) ∧
      (∀ k (hk : k + 1 <
          (YouTubeShortScript.scenes ⟨"X", 10, [⟨0, 10, "", "b"⟩]⟩).length),
        ((YouTubeShortScript.scenes ⟨"X", 10, [⟨0, 10, "", "b"⟩]⟩).get
            ⟨k, by omega⟩).«end» ≤
          ((YouTubeShortScript.scenes ⟨"X", 10, [⟨0, 10, "", "b"⟩]⟩).get
            ⟨k + 1, hk⟩).start)) ∧
    validateScript ⟨"X", 10, [⟨0, 10, "", "b"⟩]⟩ ≠ .ok () := by
  refine ⟨⟨by decide, by decide, by decide, by decide, fun k hk => ?_⟩, by decide⟩
  have hk2 : k + 1 < 1 := hk
  exact absurd hk2 (by omega)

/-- C1 (amended): for every script with non-empty title, positive
`duration_seconds`, a non-empty scene list whose every scene satisfies
`0 ≤ start < end ≤ duration_seconds` AND has non-empty `voice` and `overlay`
strings, and with `scenes[k+1].start ≥ scenes[k].end` for consecutive scenes,
`validateScript` returns without raising any error. -/
theorem validateScript_ok_of_invariants (s : YouTubeShortScript)
    (ht : s.title ≠ "") (hd : 0 < s.duration_seconds) (hne : s.scenes ≠ [])
    (hsc : ∀ sc ∈ s.scenes, 0 ≤ sc.start ∧ sc.start < sc.«end» ∧
      sc.«end» ≤ s.duration_seconds ∧ sc.voice ≠ "" ∧ sc.overlay ≠ "")
    (hadj : ∀ k (hk : k + 1 < s.scenes.length),
      (s.scenes.get ⟨k, by omega⟩).«end» ≤ (s.scenes.get ⟨k + 1, hk⟩).start) :
    validateScript s = .ok () :=
  validateScript_ok_helper s ht hd hne hsc hadj

/-- C1 (witness): the spec's end-to-end example script `{title: "X",
duration_seconds: 20, scenes: [{0,10,"a","b"}, {10,20,"a","c"}]}` validates
successfully via the amended theorem. -/
theorem validateScript_ok_of_invariants_witness :
    validateScript ⟨"X", 20, [⟨0, 10, "a", "b"⟩, ⟨10, 20, "a", "c"⟩]⟩ = .ok () := by
  refine validateScript_ok_of_invariants _ (by decide) (by decide) (by decide)
    (by decide) (fun k hk => ?_)
  have hk2 : k + 1 < 2 := hk
  have hk0 : k = 0 := by omega
  subst hk0
  exact le_rfl

/-! ## Claim C3 -/

/-- C3: for every script whose title, duration, scene list and every
individual scene pass their checks, `validateScript` (a) fails with the
scene-overlap error at index `j` whenever scene `j` starts before scene
`j - 1` ends and every earlier consecutive pair is non-overlapping (so `j` is
the first overlapping pair), and (b) returns without error when every
consecutive pair meets at an exactly equal boundary. -/
theorem validateScript_overlap_first_index (s : YouTubeShortScript)
    (ht : s.title ≠ "") (hd : 0 < s.duration_seconds) (hne : s.scenes ≠ [])
    (hsc : ∀ sc ∈ s.scenes, 0 ≤ sc.start ∧ sc.start < sc.«end» ∧
      sc.«end» ≤ s.duration_seconds ∧ sc.voice ≠ "" ∧ sc.overlay ≠ "") :
    (∀ j (hj : j < s.scenes.length), 1 ≤ j →
      (s.scenes.get ⟨j, hj⟩).start < (s.scenes.get ⟨j - 1, by omega⟩).«end» →
      (∀ k (hk : k < j), 1 ≤ k →
        (s.scenes.get ⟨k - 1, by omega⟩).«end» ≤
          (s.scenes.get ⟨k, by omega⟩).start) →
      validateScript s = .error (.sceneOverlap j)) ∧
    ((∀ j (hj : j < s.scenes.length), 1 ≤ j →
        (s.scenes.get ⟨j, hj⟩).start = (s.scenes.get ⟨j - 1, by omega⟩).«end») →
      validateScript s = .ok ()) := by
  obtain ⟨t, d, l⟩ := s
  constructor
  · intro j hj hj1 hviol hpre
    rcases l with _ | ⟨first, rest⟩
    · exact absurd rfl hne
    obtain ⟨j', rfl⟩ : ∃ j'', j = j'' + 1 := ⟨j - 1, by omega⟩
    rw [validateScript_cons_reduce _ ht hd first rest rfl
      (validateScenesFrom_ok _ _ _ hsc)]
    have hj' : j' < rest.length := by
      have hj2 : j' + 1 < rest.length + 1 := hj
      omega
    have herr := checkOverlapsFrom_err rest first 1 j' hj'
      (fun k hk => hpre (k + 1) (by omega) (by omega)) hviol
    have hc : 1 + j' = j' + 1 := Nat.add_comm 1 j'
    rw [hc] at herr
    exact herr
  · intro heq
    refine validateScript_ok_helper _ ht hd hne hsc (fun k hk => ?_)
    exact le_of_eq (heq (k + 1) hk (by omega)).symm

/-- C3 (witness): the spec's two end-to-end scenarios — the same script with
second scene starting at 5 fails with overlap index 1, and with second scene
starting at 10 (equal boundary) validates successfully. -/
theorem validateScript_overlap_first_index_witness :
    validateScript ⟨"X", 20, [⟨0, 10, "a", "b"⟩, ⟨5, 20, "a", "c"⟩]⟩ =
      .error (.sceneOverlap 1) ∧
    validateScript ⟨"X", 20, [⟨0, 11, "a", "b"⟩, ⟨11, 20, "a", "c"⟩]⟩ = .ok () := by
  constructor
  · exact (validateScript_overlap_first_index _ (by decide) (by decide)
      (by decide) (by decide)).1 1 (by decide) (by decide) (by decide)
      (fun k hk hk1 => absurd hk (by omega))
  · refine (validateScript_overlap_first_index _ (by decide) (by decide)
      (by decide) (by decide)).2 (fun j hj hj1 => ?_)
    have hj2 : j < 2 := hj
    have hj0 : j = 1 := by omega
    subst hj0
    exact rfl

/-! ## Claim C4 -/

/-- C4: for every script with a non-empty title and `duration_seconds ≤ 0`,
`validateScript` fails with the invalid-duration error, whatever the scenes
are — the duration check precedes every scene-related check. -/
theorem validateScript_nonpositive_duration (s : YouTubeShortScript)
    (ht : s.title ≠ "") (hd : s.duration_seconds ≤ 0) :
    validateScript s = .error .invalidDuration := by
  rw [validateScript, if_neg ht, if_pos hd]

/-- C4 (witness): a zero-duration script whose scene list would itself be
rejected (overlapping scenes and an out-of-range end) still reports the
invalid-duration error. -/
theorem validateScript_nonpositive_duration_witness :
    validateScript ⟨"X", 0, [⟨0, 5, "a", "b"⟩, ⟨3, 6, "a", "c"⟩]⟩ =
      .error .invalidDuration :=
  validateScript_nonpositive_duration _ (by decide) (by decide)

/-! ## Claim C2 -/

/-- C2 (counterexample): on the text `"Duration: . seconds"` the probe
pattern does match (capture `"."`), `parseFloat(".")` is `NaN`, and the
orchestrator's duration is that `NaN` — not the 30.0 the claim promises for
an unparsable number. -/
theorem jsAudioDuration_counterexample :
    findDurationMatch "Duration: . seconds".data = some ['.'] ∧
    jsAudioDuration "Duration: . seconds" = none ∧
    jsAudioDuration "Duration: . seconds" ≠ some 30 := by
  exact ⟨by decide, by decide, by decide⟩

/-- C2 (amended): when the probe text lacks the pattern the duration is
exactly 30.0; when the pattern matches, the duration is `parseFloat` of the
captured digits-and-dots string — the parsed number when the capture is
parsable (`"Duration: 45.2 seconds"` yields 45.2), but `NaN` rather than
30.0 when it is not. -/
theorem jsAudioDuration_amended (t u : String)
    (habsent : findDurationMatch t.data = none) :
    jsAudioDuration t = some 30 ∧
    (∀ cap, findDurationMatch u.data = some cap →
      jsAudioDuration u = parseFloatQ cap) ∧
    jsAudioDuration "Duration: 45.2 seconds" = some (45.2 : ℚ) := by
  refine ⟨?_, ?_, ?_⟩
  · simp [jsAudioDuration, habsent]
  · intro cap hcap
    simp [jsAudioDuration, hcap]
  · rw [jsAudioDuration, findDurationMatch_example]
    exact parseFloatQ_452

/-- C2 (witness): a pattern-free text yields the 30.0 default and the spec's
example text yields 45.2. -/
theorem jsAudioDuration_amended_witness :
    jsAudioDuration "hello world" = some 30 ∧
    jsAudioDuration "Duration: 45.2 seconds" = some (45.2 : ℚ) := by
  have h := jsAudioDuration_amended "hello world" "Duration: 45.2 seconds"
    (by decide)
  exact ⟨h.1, h.2.2⟩

/-! ## Claim C5 -/

/-- C5 (counterexample): when the load attempt throws, `loadConfig` returns
the default configuration WITHOUT caching it — after the call the memo is
still empty, so a second call does not return an "identical cached instance";
it re-runs the whole load and builds the default afresh. -/
theorem loadConfig_counterexample :
    (loadConfig LoadOutcome.loadThrew none).2 = none ∧
    ¬ ((loadConfig LoadOutcome.loadThrew none).2 =
        some (loadConfig LoadOutcome.loadThrew none).1) := by
  exact ⟨rfl, by decide⟩

/-- C5 (amended): `loadConfig` never fails outward — a miss with no config
file found, or with a throwing load, returns the complete built-in default
configuration; whenever a call does memoize its result (every path except
the throwing one), a later call returns exactly the memoized configuration
and state, whatever the filesystem then looks like; and `reloadConfig`
clears the memo and re-runs `loadConfig` from scratch. -/
theorem loadConfig_amended (env env2 : LoadOutcome) (st : Option Config)
    (hcached : (loadConfig env st).2 = some (loadConfig env st).1) :
    (loadConfig LoadOutcome.notFound none).1 = getDefaultConfig ∧
    (loadConfig LoadOutcome.loadThrew none).1 = getDefaultConfig ∧
    loadConfig env2 (loadConfig env st).2 =
      ((loadConfig env st).1, (loadConfig env st).2) ∧
    reloadConfig env2 st = loadConfig env2 none := by
  refine ⟨rfl, rfl, ?_, rfl⟩
  rw [hcached]
  rfl

/-- C5 (witness): a first not-found load caches the default, and a second
call — even one whose fresh load would throw — returns the cached pair. -/
theorem loadConfig_amended_witness :
    (loadConfig LoadOutcome.notFound none).1 = getDefaultConfig ∧
    (loadConfig LoadOutcome.loadThrew none).1 = getDefaultConfig ∧
    loadConfig LoadOutcome.loadThrew (loadConfig LoadOutcome.notFound none).2 =
      ((loadConfig LoadOutcome.notFound none).1,
        (loadConfig LoadOutcome.notFound none).2) ∧
    reloadConfig LoadOutcome.loadThrew none =
      loadConfig LoadOutcome.loadThrew none :=
  loadConfig_amended LoadOutcome.notFound LoadOutcome.loadThrew none rfl

/-! ## Claim C6 -/

/-- C6 (counterexample): workers exiting with the different non-zero codes 1
and 2 but the same stderr produce the SAME rejection value — the rejection
carries only the stderr text, not the exit code (which is merely logged). -/
theorem executePythonScript_counterexample :
    executePythonScript (ProcEnd.closed (some 1) "" "boom") =
      executePythonScript (ProcEnd.closed (some 2) "" "boom") ∧
    (some 1 : Option ℤ) ≠ some 2 := by
  exact ⟨rfl, by decide⟩

/-- C6 (amended): exit code 0 resolves the promise with the trimmed stdout
text; any other close rejects with the worker-failure error carrying the
captured stderr text (but not the exit code); a spawn failure rejects with
the spawn cause itself, a value always distinct from worker-exit
rejections. -/
theorem executePythonScript_amended (code : Option ℤ) (out err cause : String)
    (hcode : code ≠ some 0) :
    executePythonScript (ProcEnd.closed (some 0) out err) = .resolved out.trim ∧
    executePythonScript (ProcEnd.closed code out err) =
      .rejectedWorker ("Python script failed: " ++ err) ∧
    executePythonScript (ProcEnd.errored cause) = .rejectedSpawn cause ∧
    (∀ m c, ExecOutcome.rejectedSpawn c ≠ ExecOutcome.rejectedWorker m) := by
  refine ⟨rfl, ?_, rfl, fun m c h => ExecOutcome.noConfusion h⟩
  simp [executePythonScript, hcode]

/-- C6 (witness): the three settlement shapes at concrete inputs. -/
theorem executePythonScript_amended_witness :
    executePythonScript (ProcEnd.closed (some 0) "done" "bad") =
      .resolved "done".trim ∧
    executePythonScript (ProcEnd.closed (some 1) "done" "bad") =
      .rejectedWorker ("Python script failed: " ++ "bad") ∧
    executePythonScript (ProcEnd.errored "spawn ENOENT") =
      .rejectedSpawn "spawn ENOENT" := by
  have h := executePythonScript_amended (some 1) "done" "bad" "spawn ENOENT"
    (by decide)
  exact ⟨h.1, h.2.1, h.2.2.1⟩

/-! ## Claim C7 -/

/-- C7: every step name outside {generate, synth, prepare-video, assemble}
makes `runStep` fail with the unknown-step error whose message enumerates
exactly the four valid stage names, and `runStep "prepare-video"` with no
input video fails with the missing-argument error before any worker runs. -/
theorem runStep_unknown_and_missing_arg (step : String) (iv : Option String)
    (h1 : step ≠ "generate") (h2 : step ≠ "synth")
    (h3 : step ≠ "prepare-video") (h4 : step ≠ "assemble") :
    runStep step iv = .error (.unknownStep
      ("Unknown step: " ++ step ++
        ". Available steps: generate, synth, prepare-video, assemble")) ∧
    runStep "prepare-video" none = .error .missingInputVideo := by
  exact ⟨by simp [runStep, h1, h2, h3, h4], rfl⟩

/-- C7 (witness): the step name "unknown" and the argument-less
prepare-video invocation. -/
theorem runStep_unknown_and_missing_arg_witness :
    runStep "unknown" none = .error (.unknownStep
      ("Unknown step: " ++ "unknown" ++
        ". Available steps: generate, synth, prepare-video, assemble")) ∧
    runStep "prepare-video" none = .error .missingInputVideo :=
  runStep_unknown_and_missing_arg "unknown" none (by decide) (by decide)
    (by decide) (by decide)

/-! ## Claim C8 -/

/-- C8: `runStep "synth"` invokes the speech-synthesis worker with an empty
argument list, while the full pipeline's second stage invokes the same
worker with the script-file and audio-output paths as positional
arguments. -/
theorem synth_stage_arguments (iv : Option String) (cfgBg probe : String) :
    runStep "synth" iv = .ok [.execScript "synth.py" []] ∧
    (runFullPipeline cfgBg iv probe).get? 1 =
      some (.execScript "synth.py"
        ["../output/script.json", "../output/speech_all.wav"]) := by
  exact ⟨rfl, rfl⟩

/-- C8 (witness): the two synth invocations at concrete pipeline inputs. -/
theorem synth_stage_arguments_witness :
    runStep "synth" none = .ok [.execScript "synth.py" []] ∧
    (runFullPipeline "bg.mp4" none "Duration: 45.2 seconds").get? 1 =
      some (.execScript "synth.py"
        ["../output/script.json", "../output/speech_all.wav"]) :=
  synth_stage_arguments none "bg.mp4" "Duration: 45.2 seconds"

/-! ## Claim C9 -/

/-- C9: `runStep "prepare-video"` with an input video always passes the
fixed duration 30 to the video-preparation worker, never a probed value,
while the full pipeline's prepare-video stage passes the duration derived
from the probe worker's text. -/
theorem prepareVideo_stage_duration (iv : String) (hiv : iv ≠ "")
    (cfgBg probe : String) (ivOpt : Option String) :
    runStep "prepare-video" (some iv) =
      .ok [.prepareVideo iv "background.mp4" (some 30)] ∧
    (runFullPipeline cfgBg ivOpt probe).get? 3 =
      some (.prepareVideo (jsOrDefault ivOpt cfgBg) "background.mp4"
        (jsAudioDuration probe)) := by
  exact ⟨by simp [runStep, hiv], rfl⟩

/-- C9 (witness): the standalone step at a concrete video path passes 30;
the full pipeline at a concrete probe text passes the parsed duration. -/
theorem prepareVideo_stage_duration_witness :
    runStep "prepare-video" (some "minecraft_runner.mp4") =
      .ok [.prepareVideo "minecraft_runner.mp4" "background.mp4" (some 30)] ∧
    (runFullPipeline "bg.mp4" (some "minecraft_runner.mp4")
        "Duration: 45.2 seconds").get? 3 =
      some (.prepareVideo (jsOrDefault (some "minecraft_runner.mp4") "bg.mp4")
        "background.mp4" (jsAudioDuration "Duration: 45.2 seconds")) :=
  prepareVideo_stage_duration "minecraft_runner.mp4" (by decide) "bg.mp4"
    "Duration: 45.2 seconds" (some "minecraft_runner.mp4")

/-! ## Claim C10 -/

/-- C10: while the generator's model field is still null, `generateScript`
fails with the model-not-initialized error and produces no script; after
`initializeModel` has run, the model field is set and that error branch is
unreachable — any remaining failure is a catalog or validation error. -/
theorem generateScript_model_guard (s : GenState) (h : s.model = none) :
    generateScript s = .error .modelNotInitialized ∧
    generateScript (initializeModel s) ≠ .error .modelNotInitialized := by
  constructor
  · simp [generateScript, h]
  · have hred : generateScript (initializeModel s) =
        match (s.scenesData.scenes.find? fun sc =>
            sc.id = s.scenesData.default_scene).orElse
            (fun _ => s.scenesData.scenes.head?) with
        | none => .error .noSceneAvailable
        | some sc =>
          match validateScript sc.example_script with
          | .ok _ => .ok sc.example_script
          | .error e => .error (.validation e) := rfl
    rw [hred]
    rcases hfind : (s.scenesData.scenes.find? fun sc =>
        sc.id = s.scenesData.default_scene).orElse
        (fun _ => s.scenesData.scenes.head?) with _ | sc
    · simp [hfind]
    · rcases hval : validateScript sc.example_script with _ | _
      · simp [hfind, hval]
      · simp [hfind, hval]

/-- C10 (witness): at a concrete uninitialized generator state, the guard
fires; after initialization it can no longer fire. -/
theorem generateScript_model_guard_witness :
    generateScript ⟨none, ⟨[], "s1"⟩⟩ = .error .modelNotInitialized ∧
    generateScript (initializeModel ⟨none, ⟨[], "s1"⟩⟩) ≠
      .error .modelNotInitialized :=
  generateScript_model_guard ⟨none, ⟨[], "s1"⟩⟩ rfl
